import Mathlib

/- Shallow embedding of the aiosomecomfort client library
   (src/aiosomecomfort/__init__.py, device.py, location.py, exceptions.py).
   Temperatures travel as exact rationals; machine time is an integer count
   of seconds; the HTTP transport is an explicit collaborator value. -/

namespace AIOSomecomfort

/-- Error taxonomy of exceptions.py, together with the raw Python exceptions
that can escape the library code uncaught (KeyError, IndexError,
AttributeError, UnboundLocalError). -/
inductive Err
  | someComfort (msg : String)
  | api (msg : String)
  | auth (msg : String)
  | conn (msg : String)
  | rateLimited (msg : String)
  | unauthorized (msg : String)
  | unexpectedResponse (msg : String)
  | keyError (key : String)
  | indexError
  | attributeError
  | valueError (msg : String)
  | unboundLocal (var : String)
  deriving Repr, DecidableEq

/-- A Python datetime.time value restricted to the fields the code reads. -/
structure TimeOfDay where
  hour : Nat
  minute : Nat
  deriving Repr, DecidableEq

/-- device.py _hold_quarter_hours: reject a deadline not on a 15-minute
boundary, otherwise truncate (hour*60+minute)/15. -/
def hold_quarter_hours (deadline : TimeOfDay) : Except Err Nat :=
  if deadline.minute = 0 ∨ deadline.minute = 15 ∨ deadline.minute = 30 ∨ deadline.minute = 45 then
    Except.ok ((deadline.hour * 60 + deadline.minute) / 15)
  else
    Except.error (Err.someComfort "Invalid time: must be on a 15-minute boundary")

/-- device.py _hold_deadline: decode quarter hours back to a time of day.
The datetime.time constructor validates its fields, so an hour of 24 or more
(quarter_hours of 96 or more) raises ValueError; the minute, being a
remainder mod 60, is always in range. -/
def hold_deadline (quarter_hours : Nat) : Except Err TimeOfDay :=
  if quarter_hours * 15 / 60 < 24 then
    Except.ok (TimeOfDay.mk (quarter_hours * 15 / 60) (quarter_hours * 15 % 60))
  else
    Except.error (Err.valueError "hour must be in 0..23")

/-- Python str.title on one character: uppercase an alphabetic character that
does not follow an alphabetic character, lowercase the rest. -/
def pyTitleChar (prevAlpha : Bool) (c : Char) : Char :=
  if c.isAlpha then (if prevAlpha then c.toLower else c.toUpper) else c

def pyTitleGo : Bool → List Char → List Char
  | _, [] => []
  | prevAlpha, c :: cs => pyTitleChar prevAlpha c :: pyTitleGo c.isAlpha cs

/-- Python str.title, used to build the per-mode allowed-flag key names. -/
def pyTitle (s : String) : String := String.mk (pyTitleGo false s.data)

/-- Python list.index returning none instead of raising ValueError. -/
def pyIndex : List String → String → Option Nat
  | [], _ => none
  | y :: ys, x => if y = x then some 0 else Option.map (fun n => n + 1) (pyIndex ys x)

/-- Python list.index for an element known to be present. -/
def listIndexOf (l : List String) (x : String) : Nat := (pyIndex l x).getD l.length

def FAN_MODES : List String := ["auto", "on", "circulate", "follow schedule"]

def SYSTEM_MODES : List String := ["emheat", "heat", "off", "cool", "auto", "auto"]

def HOLD_TYPES : List String := ["schedule", "temporary", "permanent"]

/-- The keys of the SubmitControlScreenChanges payload built by
set_thermostat_settings; a field left none is sent as JSON null, exactly the
defaulting that set_thermostat_settings applies before data.update(settings). -/
structure Settings where
  SystemSwitch : Option Nat
  HeatSetpoint : Option Rat
  CoolSetpoint : Option Rat
  HeatNextPeriod : Option Nat
  CoolNextPeriod : Option Nat
  StatusHeat : Option Nat
  StatusCool : Option Nat
  FanMode : Option Nat
  deriving Repr, DecidableEq

/-- The empty settings dict each device method starts from. -/
def Settings.empty : Settings := ⟨none, none, none, none, none, none, none, none⟩

/-- The uiData block fields read or written by the device command methods.
Every live payload carries these keys, so they are record fields rather than
optional dictionary entries; the per-mode Switch*Allowed flags keep
dictionary form because set_system_mode probes them by computed name. -/
structure UiData where
  CoolSetpoint : Rat
  HeatSetpoint : Rat
  CoolLowerSetptLimit : Rat
  CoolUpperSetptLimit : Rat
  HeatLowerSetptLimit : Rat
  HeatUpperSetptLimit : Rat
  Deadband : Rat
  StatusHeat : Nat
  StatusCool : Nat
  HeatNextPeriod : Nat
  CoolNextPeriod : Nat
  SystemSwitchPosition : Nat
  switchFlags : List (String × Bool)
  deriving Repr, DecidableEq

/-- The fanData block: the current mode index plus the fanMode*Allowed flags,
kept in dictionary form because set_fan_mode probes them by computed name and
an absent key raises KeyError. -/
structure FanData where
  fanMode : Nat
  fanFlags : List (String × Bool)
  deriving Repr, DecidableEq

/-- The cached device data mutated by the command methods. -/
structure DevData where
  ui : UiData
  fan : FanData
  deriving Repr, DecidableEq

/-- The two sides of the thermostat, the `which` string of the source. -/
inductive Which
  | Heat
  | Cool
  deriving Repr, DecidableEq

/-- Value returned by Device._get_hold: False for schedule, True for
permanent, a datetime.time for temporary. -/
inductive HoldVal
  | boolVal (b : Bool)
  | timeVal (t : TimeOfDay)
  deriving Repr, DecidableEq

/-- Python truthiness of a _get_hold result; datetime.time values are always
truthy. -/
def HoldVal.truthy : HoldVal → Bool
  | .boolVal b => b
  | .timeVal _ => true

/-- device.py Device._get_hold: index Status{which} into HOLD_TYPES (an out of
range status raises IndexError, uncaught because the source catches only
KeyError), then map schedule to False, permanent to True and temporary to the
decoded {which}NextPeriod deadline; a NextPeriod of 96 or more makes the
decode raise ValueError, which propagates. -/
def get_hold (ui : UiData) (which : Which) : Except Err HoldVal :=
  let idx := match which with
    | Which.Heat => ui.StatusHeat
    | Which.Cool => ui.StatusCool
  match HOLD_TYPES.get? idx with
  | none => Except.error Err.indexError
  | some hold =>
    if hold = "schedule" then Except.ok (HoldVal.boolVal false)
    else if hold = "permanent" then Except.ok (HoldVal.boolVal true)
    else
      match hold_deadline (match which with
        | Which.Heat => ui.HeatNextPeriod
        | Which.Cool => ui.CoolNextPeriod) with
      | Except.error e => Except.error e
      | Except.ok t => Except.ok (HoldVal.timeVal t)

def MIN_LOGIN_TIME : Int := 600

def MAX_LOGIN_ATTEMPTS : Nat := 3

/-- The session client state touched by the claims: the consecutive null
cookie counter and the next allowed login timestamp, in seconds. -/
structure ClientState where
  nullCookieCount : Nat
  nextLogin : Int
  deriving Repr, DecidableEq

/-- AIOSomeComfort._set_null_count: increment the counter and, from the third
consecutive failure on, push next_login ten minutes past the current time. -/
def set_null_count (cs : ClientState) (now : Int) : ClientState :=
  if MAX_LOGIN_ATTEMPTS ≤ cs.nullCookieCount + 1 then
    ClientState.mk (cs.nullCookieCount + 1) (now + MIN_LOGIN_TIME)
  else
    ClientState.mk (cs.nullCookieCount + 1) cs.nextLogin

/-- A JSON value as decoded from a response body. -/
inductive JVal
  | null
  | num (q : Rat)
  | str (s : String)
  | boolean (b : Bool)
  | arr (l : List JVal)
  | obj (l : List (String × JVal))

/-- Python dict lookup on a decoded JSON object. -/
def jLookup : List (String × JVal) → String → Option JVal
  | [], _ => none
  | (k, v) :: rest, key => if k = key then some v else jLookup rest key

/-- The transport response fields _request_json inspects. -/
structure HttpResponse where
  status : Nat
  contentType : String
  historyLen : Nat
  jsonBody : JVal

/-- What _request_json hands back on success: the decoded JSON body for a JSON
content type, the raw response object for an octet-stream one. -/
inductive ReqResult
  | jsonVal (v : JVal)
  | rawResp (r : HttpResponse)

def BASEURL : String := "https://www.mytotalconnectcomfort.com"

/-- AIOSomeComfort._request_json: the shared fetch-and-classify primitive.
Cookie mending touches only the transport cookie jar, which is outside this
state, so it leaves no trace here. -/
def request_json (cs : ClientState) (url : String) (resp : HttpResponse) :
    ClientState × Except Err ReqResult :=
  let req := url.replace BASEURL ""
  if resp.status = 200 ∧ (resp.contentType = "application/json" ∨ resp.contentType = "application/octet-stream") then
    let cs2 := ClientState.mk 0 cs.nextLogin
    if resp.contentType = "application/json" then
      (cs2, Except.ok (ReqResult.jsonVal resp.jsonBody))
    else
      (cs2, Except.ok (ReqResult.rawResp resp))
  else if resp.status = 401 then
    (cs, Except.error (Err.unauthorized "401 Error at update (Key Expired?)."))
  else if resp.status = 403 then
    (cs, Except.error (Err.unauthorized "403 Error at update (Key Expired?)."))
  else if resp.status = 500 ∨ resp.status = 502 ∨ resp.status = 503 ∨ 0 < resp.historyLen then
    (cs, Except.error (Err.conn ("Service Unavailable " ++ toString resp.status ++ ".")))
  else
    (cs, Except.error (Err.unexpectedResponse ("API returned " ++ toString resp.status ++ ", " ++ req)))

/-- Outcome of set_thermostat_settings: the payload actually posted, the
client state after the embedded _post_json, and the success or failure. -/
structure SubmitOutcome where
  payload : Settings
  cs : ClientState
  result : Except Err Unit

def SUBMIT_URL : String := BASEURL ++ "/portal/Device/SubmitControlScreenChanges"

/-- Classification of the decoded command response, following the check
`result is None or result.get("success") != 1`: a JSON null body decodes to
Python None and is short-circuited into the APIError rejection; a body whose
success field equals 1 is accepted; any other object is the APIError
rejection; a non-object non-null body, or the raw response returned for an
octet-stream content type, has no .get attribute and raises
AttributeError. -/
def submitResult : Except Err ReqResult → Except Err Unit
  | Except.error e => Except.error e
  | Except.ok (ReqResult.rawResp _) => Except.error Err.attributeError
  | Except.ok (ReqResult.jsonVal JVal.null) =>
    Except.error (Err.api "API rejected thermostat settings")
  | Except.ok (ReqResult.jsonVal (JVal.obj l)) =>
    match jLookup l "success" with
    | some (JVal.num q) =>
      if q = 1 then Except.ok ()
      else Except.error (Err.api "API rejected thermostat settings")
    | _ => Except.error (Err.api "API rejected thermostat settings")
  | Except.ok (ReqResult.jsonVal _) => Except.error Err.attributeError

/-- AIOSomeComfort.set_thermostat_settings: post the defaulted-and-updated
settings dict through _post_json, then classify the response body. -/
def set_thermostat_settings (cs : ClientState) (settings : Settings) (resp : HttpResponse) :
    SubmitOutcome :=
  SubmitOutcome.mk settings (request_json cs SUBMIT_URL resp).1
    (submitResult (request_json cs SUBMIT_URL resp).2)

/-- The two transport responses a full login attempt can consume: the status
of the credential POST, then the status and the optional AUTH_COOKIE value of
the confirming GET. -/
structure LoginResponses where
  postStatus : Nat
  getStatus : Nat
  getCookie : Option String

/-- Outcome of login: how many transport requests were issued, the client
state afterwards, and the result. -/
structure LoginOutcome where
  requests : Nat
  cs : ClientState
  result : Except Err Unit

/-- AIOSomeComfort.login: rate-limit gate before any request, credential POST,
then confirming GET with the null-cookie check; only the 401 POST, the
null-cookie GET and the 401 GET touch the failure counter. -/
def login (cs : ClientState) (now : Int) (tr : LoginResponses) : LoginOutcome :=
  if cs.nextLogin > now then
    LoginOutcome.mk 0 cs (Except.error (Err.rateLimited "Rate limit on login: Waiting 0:10:00"))
  else if tr.postStatus = 401 then
    LoginOutcome.mk 1 (set_null_count cs now) (Except.error (Err.auth "Login as %s failed"))
  else if tr.postStatus ≠ 200 then
    LoginOutcome.mk 1 cs (Except.error (Err.conn ("Connection error " ++ toString tr.postStatus)))
  else if tr.getCookie = some "" then
    LoginOutcome.mk 2 (set_null_count cs now) (Except.error (Err.auth "Null cookie connection error"))
  else if tr.getStatus = 401 then
    LoginOutcome.mk 2 (set_null_count cs now) (Except.error (Err.auth "Login as %s failed - Unauthorized"))
  else if tr.getStatus ≠ 200 then
    LoginOutcome.mk 2 cs (Except.error (Err.conn ("Connection error " ++ toString tr.getStatus)))
  else
    LoginOutcome.mk 2 cs (Except.ok ())

/-- Result of one device command method: the payloads submitted to the
command endpoint (empty when local validation failed first), the result, and
the cached device data and client state afterwards. -/
structure OpResult where
  requests : List Settings
  result : Except Err Unit
  dev : DevData
  cs : ClientState

/-- The final lines shared by every command method: submit the finished
settings payload and, only on a success response, commit the prospective
cached state devOk; on failure keep the unchanged dev. -/
def submitTail (cs : ClientState) (dev : DevData) (resp : HttpResponse) (d : Settings)
    (devOk : DevData) : OpResult :=
  OpResult.mk [d] (set_thermostat_settings cs d resp).result
    (match (set_thermostat_settings cs d resp).result with
      | Except.error _ => dev
      | Except.ok _ => devOk)
    (set_thermostat_settings cs d resp).cs

/-- The hold-promotion block shared verbatim by set_setpoint_cool and
set_setpoint_heat: when neither side holds, add temporary StatusCool and
StatusHeat to the payload; evaluation short-circuits like the Python
`not A and not B`, so a truthy heat hold never reads the cool status. -/
def promote_hold (ui : UiData) (data : Settings) : Except Err Settings :=
  match get_hold ui Which.Heat with
  | Except.error e => Except.error e
  | Except.ok hh =>
    if hh.truthy then Except.ok data
    else
      match get_hold ui Which.Cool with
      | Except.error e => Except.error e
      | Except.ok hc =>
        if hc.truthy then Except.ok data
        else Except.ok { data with
          StatusCool := some (listIndexOf HOLD_TYPES "temporary"),
          StatusHeat := some (listIndexOf HOLD_TYPES "temporary") }

/-- device.py Device.set_setpoint_cool. -/
def set_setpoint_cool (cs : ClientState) (dev : DevData) (temp : Rat) (resp : HttpResponse) :
    OpResult :=
  let ui := dev.ui
  let lower := ui.CoolLowerSetptLimit
  let upper := ui.CoolUpperSetptLimit
  let deadband := ui.Deadband
  let heatsp := ui.HeatSetpoint
  if upper < temp ∨ temp < lower then
    OpResult.mk [] (Except.error (Err.someComfort "Setpoint outside range")) dev cs
  else
    let data1 := { Settings.empty with CoolSetpoint := some temp }
    let data2 :=
      if 0 < deadband ∧ temp ≤ heatsp + deadband then
        { data1 with HeatSetpoint := some (temp - deadband) }
      else
        { data1 with HeatSetpoint := some heatsp }
    match promote_hold ui data2 with
    | Except.error e => OpResult.mk [] (Except.error e) dev cs
    | Except.ok data3 =>
      submitTail cs dev resp data3 (DevData.mk { ui with CoolSetpoint := temp } dev.fan)

/-- device.py Device.set_setpoint_heat; a missing temperature falls back to
the cached heat setpoint. -/
def set_setpoint_heat (cs : ClientState) (dev : DevData) (temparg : Option Rat) (resp : HttpResponse) :
    OpResult :=
  let ui := dev.ui
  let lower := ui.HeatLowerSetptLimit
  let upper := ui.HeatUpperSetptLimit
  let deadband := ui.Deadband
  let coolsp := ui.CoolSetpoint
  let temp := match temparg with
    | none => ui.HeatSetpoint
    | some t => t
  if upper < temp ∨ temp < lower then
    OpResult.mk [] (Except.error (Err.someComfort "Setpoint outside range")) dev cs
  else
    let data1 := { Settings.empty with HeatSetpoint := some temp }
    let data2 :=
      if 0 < deadband ∧ coolsp - deadband ≤ temp then
        { data1 with CoolSetpoint := some (temp + deadband) }
      else
        { data1 with CoolSetpoint := some coolsp }
    match promote_hold ui data2 with
    | Except.error e => OpResult.mk [] (Except.error e) dev cs
    | Except.ok data3 =>
      submitTail cs dev resp data3 (DevData.mk { ui with HeatSetpoint := temp } dev.fan)

/-- device.py Device.set_fan_mode: an unknown mode fails with the library
validation error, an absent fanMode{Mode}Allowed key raises KeyError, a
present false flag fails with the library validation error; only then is the
command submitted and, on success, the cached fanMode updated. -/
def set_fan_mode (cs : ClientState) (dev : DevData) (mode : String) (resp : HttpResponse) :
    OpResult :=
  match pyIndex FAN_MODES mode with
  | none => OpResult.mk [] (Except.error (Err.someComfort ("Invalid fan mode " ++ mode))) dev cs
  | some mode_index =>
    let key := "fanMode" ++ pyTitle mode ++ "Allowed"
    match dev.fan.fanFlags.lookup key with
    | none => OpResult.mk [] (Except.error (Err.keyError key)) dev cs
    | some allowed =>
      if allowed then
        submitTail cs dev resp { Settings.empty with FanMode := some mode_index }
          (DevData.mk dev.ui (FanData.mk mode_index dev.fan.fanFlags))
      else
        OpResult.mk [] (Except.error (Err.someComfort ("Device does not support " ++ mode))) dev cs

/-- device.py Device.set_system_mode: emheat maps to SwitchEmergencyHeatAllowed
while every other mode probes Switch{Mode}Allowed; here the KeyError for an
absent flag is caught and re-raised as APIError. -/
def set_system_mode (cs : ClientState) (dev : DevData) (mode : String) (resp : HttpResponse) :
    OpResult :=
  match pyIndex SYSTEM_MODES mode with
  | none => OpResult.mk [] (Except.error (Err.someComfort ("Invalid system mode " ++ mode))) dev cs
  | some mode_index =>
    let key := if mode = "emheat" then "SwitchEmergencyHeatAllowed" else "Switch" ++ pyTitle mode ++ "Allowed"
    match dev.ui.switchFlags.lookup key with
    | none => OpResult.mk [] (Except.error (Err.api ("Unknown Key: " ++ key))) dev cs
    | some allowed =>
      if allowed then
        submitTail cs dev resp { Settings.empty with SystemSwitch := some mode_index }
          (DevData.mk { dev.ui with SystemSwitchPosition := mode_index } dev.fan)
      else
        OpResult.mk [] (Except.error (Err.someComfort ("Device does not support " ++ mode))) dev cs

/-- The hold argument of Device._set_hold: True, False, a datetime.time, or
anything else (rejected). -/
inductive HoldArg
  | boolArg (b : Bool)
  | timeArg (t : TimeOfDay)
  | otherArg
  deriving Repr, DecidableEq

/-- Python dict.update of a settings dict onto the cached uiData, field by
field. The settings passed by _set_hold never carry SystemSwitch or FanMode,
the only keys absent from the uiData record. -/
def UiData.applySettings (ui : UiData) (s : Settings) : UiData :=
  { ui with
    HeatSetpoint := s.HeatSetpoint.getD ui.HeatSetpoint,
    CoolSetpoint := s.CoolSetpoint.getD ui.CoolSetpoint,
    StatusHeat := s.StatusHeat.getD ui.StatusHeat,
    StatusCool := s.StatusCool.getD ui.StatusCool,
    HeatNextPeriod := s.HeatNextPeriod.getD ui.HeatNextPeriod,
    CoolNextPeriod := s.CoolNextPeriod.getD ui.CoolNextPeriod }

/-- device.py Device._set_hold, shared by set_hold_heat and set_hold_cool.
A zero temperature is falsy in Python, so `if temperature:` skips the whole
range-check-and-setpoint block for it just as it does for None. -/
def set_hold (cs : ClientState) (dev : DevData) (which : Which) (hold : HoldArg)
    (temperature : Option Rat) (resp : HttpResponse) : OpResult :=
  let ui := dev.ui
  let settings0 : Except Err Settings :=
    match hold with
    | HoldArg.boolArg true => Except.ok { Settings.empty with
        StatusCool := some (listIndexOf HOLD_TYPES "permanent"),
        StatusHeat := some (listIndexOf HOLD_TYPES "permanent") }
    | HoldArg.boolArg false => Except.ok { Settings.empty with
        StatusCool := some (listIndexOf HOLD_TYPES "schedule"),
        StatusHeat := some (listIndexOf HOLD_TYPES "schedule") }
    | HoldArg.timeArg t =>
      match hold_quarter_hours t with
      | Except.error e => Except.error e
      | Except.ok qh => Except.ok { Settings.empty with
          StatusCool := some (listIndexOf HOLD_TYPES "temporary"),
          CoolNextPeriod := some qh,
          StatusHeat := some (listIndexOf HOLD_TYPES "temporary"),
          HeatNextPeriod := some qh }
    | HoldArg.otherArg => Except.error (Err.someComfort "Hold should be True, False, or datetime.time")
  match settings0 with
  | Except.error e => OpResult.mk [] (Except.error e) dev cs
  | Except.ok s0 =>
    let withTemp : Except Err Settings :=
      match temperature with
      | none => Except.ok s0
      | some t =>
        if t = 0 then Except.ok s0
        else
          let lower := match which with
            | Which.Heat => ui.HeatLowerSetptLimit
            | Which.Cool => ui.CoolLowerSetptLimit
          let upper := match which with
            | Which.Heat => ui.HeatUpperSetptLimit
            | Which.Cool => ui.CoolUpperSetptLimit
          let deadband := ui.Deadband
          let coolsp := ui.CoolSetpoint
          let heatsp := ui.HeatSetpoint
          if upper < t ∨ t < lower then
            Except.error (Err.someComfort "Setpoint outside range")
          else
            let s1 :=
              if which = Which.Heat ∧ 0 < deadband ∧ coolsp - deadband ≤ t then
                { s0 with CoolSetpoint := some (t + deadband) }
              else s0
            let s2 :=
              if which = Which.Cool ∧ 0 < deadband ∧ t ≤ heatsp + deadband then
                { s1 with HeatSetpoint := some (t - deadband) }
              else s1
            let s3 := match which with
              | Which.Heat => { s2 with HeatSetpoint := some t }
              | Which.Cool => { s2 with CoolSetpoint := some t }
            Except.ok s3
    match withTemp with
    | Except.error e => OpResult.mk [] (Except.error e) dev cs
    | Except.ok s =>
      submitTail cs dev resp s (DevData.mk (ui.applySettings s) dev.fan)

/-- A raw device record inside a location record, reduced to the field the
discovery claims inspect; from_location_response reads its fields with .get,
which cannot raise KeyError. -/
structure RawDevice where
  deviceID : String
  deriving Repr, DecidableEq

/-- A raw location record: the two keys Location.from_api_response reads with
bracket indexing, so an absent key raises KeyError. -/
structure RawLocation where
  locationID : Option String
  devicesKey : Option (List RawDevice)
  deriving Repr, DecidableEq

/-- The handle discovery registers per location. -/
structure LocationModel where
  locationid : String
  deviceids : List String
  deriving Repr, DecidableEq

/-- Sequential device construction inside from_api_response, stopping at the
first failing device. -/
def mapDevices (mkDevice : RawDevice → Except Err String) :
    List RawDevice → Except Err (List String)
  | [] => Except.ok []
  | d :: ds =>
    match mkDevice d with
    | Except.error e => Except.error e
    | Except.ok x =>
      match mapDevices mkDevice ds with
      | Except.error e => Except.error e
      | Except.ok xs => Except.ok (x :: xs)

/-- location.py Location.from_api_response: bracket-index LocationID and
Devices (KeyError when absent), then construct every device. The collaborator
mkDevice summarises Device.from_location_response, whose construction plus
first refresh can fail only with non-KeyError errors. -/
def from_api_response (mkDevice : RawDevice → Except Err String)
    (api_response : RawLocation) : Except Err LocationModel :=
  match api_response.locationID with
  | none => Except.error (Err.keyError "LocationID")
  | some lid =>
    match api_response.devicesKey with
    | none => Except.error (Err.keyError "Devices")
    | some devs =>
      match mapDevices mkDevice devs with
      | Except.error e => Except.error e
      | Except.ok ids => Except.ok (LocationModel.mk lid ids)

/-- Python dict assignment self._locations[key] = loc: replace an existing
key in place or append a new one. -/
def registryUpdate (reg : List (String × LocationModel)) (key : String) (loc : LocationModel) :
    List (String × LocationModel) :=
  match reg with
  | [] => [(key, loc)]
  | (k, v) :: rest =>
    if k = key then (key, loc) :: rest else (k, v) :: registryUpdate rest key loc

/-- The loop body of AIOSomeComfort.discover, with the registration statement
placed as in the source: inside the for loop but after (outside) the
try/except, so it always runs on the current value of the loop-local variable
`location`. When the first record fails its parse, that variable is still
unbound and reading it raises UnboundLocalError; when a later record fails,
the variable still holds the previous location, which gets re-registered
under its own key. Only KeyError is caught. -/
def discoverLoop (mkDevice : RawDevice → Except Err String) :
    Option LocationModel → List (String × LocationModel) → List RawLocation →
    Except Err (List (String × LocationModel))
  | _, reg, [] => Except.ok reg
  | lastLoc, reg, raw :: rest =>
    match from_api_response mkDevice raw with
    | Except.ok loc =>
      discoverLoop mkDevice (some loc) (registryUpdate reg loc.locationid loc) rest
    | Except.error (Err.keyError _) =>
      match lastLoc with
      | none => Except.error (Err.unboundLocal "location")
      | some prev =>
        discoverLoop mkDevice (some prev) (registryUpdate reg prev.locationid prev) rest
    | Except.error e => Except.error e

/-- AIOSomeComfort.discover: a None location list yields no work; otherwise
run the loop over the raw records against the existing registry. -/
def discover (mkDevice : RawDevice → Except Err String)
    (locations0 : List (String × LocationModel))
    (raw_locations : Option (List RawLocation)) :
    Except Err (List (String × LocationModel)) :=
  match raw_locations with
  | none => Except.ok locations0
  | some l => discoverLoop mkDevice none locations0 l

/-- Device construction collaborator that always succeeds, for runs where
every device record is well formed and its first refresh succeeds. -/
def okDevice : RawDevice → Except Err String := fun d => Except.ok d.deviceID

def HUMIDITY_STEP : Int := 5

/-- device.py _humidity_step: round value to the nearest multiple of 5.
Python rounds the float value/5 half-to-even, but an integer value over 5
can never land on a half-integer, so exact rational rounding agrees with
the float result. -/
def humidity_step (value : Int) : Int :=
  HUMIDITY_STEP * round ((value : Rat) / (HUMIDITY_STEP : Rat))

/-- The humidifier (or dehumidifier) sub-object of the extended data block:
the fields the mutators read, rewrite and post. -/
structure HumData where
  Setpoint : Int
  Mode : Int
  UpperLimit : Int
  LowerLimit : Int
  deriving Repr, DecidableEq

/-- The extended _gdata block cached per device. -/
structure GData where
  Humidifier : Option HumData
  Dehumidifier : Option HumData
  deriving Repr, DecidableEq

/-- Result of a humidifier mutator: the sub-objects posted, the outcome, and
the cached _gdata block and client state afterwards. -/
structure HumOpResult where
  requests : List HumData
  result : Except Err Unit
  gdata : GData
  cs : ClientState

def HUMIDIFIER_URL : String := BASEURL ++ "/portal/Device/Menu/Humidifier"

/-- device.py Device.set_humidifier_setpoint. The local name data aliases
the cached Humidifier dict, so data.update writes the rounded setpoint into
the cache BEFORE the POST is issued; an absent Humidifier key raises
KeyError. The response check reads result.ok: a decoded JSON null body is
None and fails the None check with the APIError rejection, any other
decoded JSON body has no .ok attribute and raises AttributeError, and only
the raw octet-stream response carries .ok (status below 400). -/
def set_humidifier_setpoint (cs : ClientState) (gdata : GData) (humidity : Int)
    (resp : HttpResponse) : HumOpResult :=
  match gdata.Humidifier with
  | none => HumOpResult.mk [] (Except.error (Err.keyError "Humidifier")) gdata cs
  | some h =>
    let h2 := { h with Setpoint := humidity_step humidity }
    let g2 := GData.mk (some h2) gdata.Dehumidifier
    match (request_json cs HUMIDIFIER_URL resp).2 with
    | Except.error e =>
      HumOpResult.mk [h2] (Except.error e) g2 (request_json cs HUMIDIFIER_URL resp).1
    | Except.ok (ReqResult.jsonVal JVal.null) =>
      HumOpResult.mk [h2] (Except.error (Err.api "API rejected humidity settings")) g2
        (request_json cs HUMIDIFIER_URL resp).1
    | Except.ok (ReqResult.jsonVal _) =>
      HumOpResult.mk [h2] (Except.error Err.attributeError) g2
        (request_json cs HUMIDIFIER_URL resp).1
    | Except.ok (ReqResult.rawResp r) =>
      if 200 ≤ r.status ∧ r.status < 400 then
        HumOpResult.mk [h2] (Except.ok ()) g2 (request_json cs HUMIDIFIER_URL resp).1
      else
        HumOpResult.mk [h2] (Except.error (Err.api "API rejected humidity settings")) g2
          (request_json cs HUMIDIFIER_URL resp).1

/-- Example uiData for the concrete witnesses: the spec scenario with cool
setpoint 75, heat setpoint 68, deadband 3, both sides following schedule. -/
def exUi : UiData :=
  UiData.mk 75 68 50 99 40 90 3 0 0 32 32 1
    [("SwitchHeatAllowed", true), ("SwitchEmergencyHeatAllowed", false), ("SwitchOffAllowed", false)]

/-- Example fanData: fanModeOnAllowed is absent, fanModeCirculateAllowed is
present but false. -/
def exFan : FanData :=
  FanData.mk 0 [("fanModeAutoAllowed", true), ("fanModeCirculateAllowed", false)]

def exDev : DevData := DevData.mk exUi exFan

/-- Transport response reporting command success. -/
def exRespOK : HttpResponse :=
  HttpResponse.mk 200 "application/json" 0 (JVal.obj [("success", JVal.num 1)])

def exCs : ClientState := ClientState.mk 0 0

/-- The fetch primitive never moves the next allowed login time. -/
theorem request_json_nextLogin (cs : ClientState) (url : String) (resp : HttpResponse) :
    (request_json cs url resp).1.nextLogin = cs.nextLogin := by
  unfold request_json
  repeat' split
  all_goals rfl

/-- The shared submit tail always records exactly the one payload it posts. -/
theorem submitTail_requests (cs : ClientState) (dev : DevData) (resp : HttpResponse)
    (d : Settings) (devOk : DevData) :
    (submitTail cs dev resp d devOk).requests = [d] := rfl

/-- On a failed submit the cached device data is left untouched. -/
theorem submitTail_error (cs : ClientState) (dev : DevData) (resp : HttpResponse)
    (d : Settings) (devOk : DevData) (e : Err)
    (h : (submitTail cs dev resp d devOk).result = Except.error e) :
    (submitTail cs dev resp d devOk).dev = dev := by
  have h2 : (set_thermostat_settings cs d resp).result = Except.error e := h
  show (match (set_thermostat_settings cs d resp).result with
    | Except.error _ => dev
    | Except.ok _ => devOk) = dev
  rw [h2]

/-- On a successful submit the prospective cached state is committed. -/
theorem submitTail_ok (cs : ClientState) (dev : DevData) (resp : HttpResponse)
    (d : Settings) (devOk : DevData)
    (h : (submitTail cs dev resp d devOk).result = Except.ok ()) :
    (submitTail cs dev resp d devOk).dev = devOk := by
  have h2 : (set_thermostat_settings cs d resp).result = Except.ok () := h
  show (match (set_thermostat_settings cs d resp).result with
    | Except.error _ => dev
    | Except.ok _ => devOk) = devOk
  rw [h2]

/-- The submit tail never moves the next allowed login time. -/
theorem submitTail_nextLogin (cs : ClientState) (dev : DevData) (resp : HttpResponse)
    (d : Settings) (devOk : DevData) :
    (submitTail cs dev resp d devOk).cs.nextLogin = cs.nextLogin := by
  show (request_json cs SUBMIT_URL resp).1.nextLogin = cs.nextLogin
  exact request_json_nextLogin cs SUBMIT_URL resp

/-- A NextPeriod below 96 quarter hours decodes without raising. -/
theorem hold_deadline_ok (q : Nat) (h : q < 96) :
    hold_deadline q = Except.ok (TimeOfDay.mk (q * 15 / 60) (q * 15 % 60)) := by
  unfold hold_deadline
  rw [if_pos (by omega)]

/-- A successful hold promotion never edits the setpoint fields of the
payload. -/
theorem promote_hold_preserves (ui : UiData) (d s : Settings)
    (h : promote_hold ui d = Except.ok s) :
    s.HeatSetpoint = d.HeatSetpoint ∧ s.CoolSetpoint = d.CoolSetpoint := by
  unfold promote_hold at h
  repeat' split at h
  all_goals simp_all
  all_goals subst h
  all_goals simp

/-- When both sides follow schedule, the promotion block adds temporary
StatusCool and StatusHeat (index 1 of HOLD_TYPES) to the payload. -/
theorem promote_hold_schedule (ui : UiData) (d : Settings)
    (hs : ui.StatusHeat = 0) (hc : ui.StatusCool = 0) :
    promote_hold ui d =
      Except.ok { d with StatusCool := some 1, StatusHeat := some 1 } := by
  simp [promote_hold, get_hold, hs, hc, HOLD_TYPES, HoldVal.truthy, listIndexOf, pyIndex]

/-- When either side already holds with a decodable temporary deadline, the
promotion block leaves the payload unchanged. -/
theorem promote_hold_held (ui : UiData) (d : Settings)
    (hH : ui.StatusHeat < 3) (hC : ui.StatusCool < 3)
    (hHN : ui.HeatNextPeriod < 96) (hCN : ui.CoolNextPeriod < 96)
    (h : ¬(ui.StatusHeat = 0 ∧ ui.StatusCool = 0)) :
    promote_hold ui d = Except.ok d := by
  have hh3 : ui.StatusHeat = 0 ∨ ui.StatusHeat = 1 ∨ ui.StatusHeat = 2 := by omega
  have hc3 : ui.StatusCool = 0 ∨ ui.StatusCool = 1 ∨ ui.StatusCool = 2 := by omega
  rcases hh3 with hs | hs | hs <;> rcases hc3 with hcc | hcc | hcc <;>
    simp_all [promote_hold, get_hold, HOLD_TYPES, HoldVal.truthy,
      hold_deadline_ok ui.HeatNextPeriod hHN, hold_deadline_ok ui.CoolNextPeriod hCN]

/-- C3: with the first raw location record missing LocationID and the second
record well formed, discover aborts with UnboundLocalError on the loop
variable and registers nothing, instead of logging and skipping the
malformed record and registering the well-formed location. -/
theorem C3_discover_malformed_first_aborts :
    discover okDevice []
      (some [RawLocation.mk none (some []),
             RawLocation.mk (some "L2") (some [RawDevice.mk "d2"])]) =
      Except.error (Err.unboundLocal "location") := rfl

/-- C4: a hold deadline whose minute is not 0, 15, 30 or 45 makes set_hold
fail with the boundary validation error while issuing zero requests, for
either side and any optional target temperature; and a deadline on a
15-minute boundary encodes to quarter_hours = (hour*60+minute)/15 and
decodes back to the identical time of day. -/
theorem C4_hold_deadline_roundtrip (cs : ClientState) (dev : DevData) (resp : HttpResponse) :
    (∀ (t : TimeOfDay) (which : Which) (temperature : Option Rat),
      ¬(t.minute = 0 ∨ t.minute = 15 ∨ t.minute = 30 ∨ t.minute = 45) →
      (set_hold cs dev which (HoldArg.timeArg t) temperature resp).requests = [] ∧
      (set_hold cs dev which (HoldArg.timeArg t) temperature resp).result =
        Except.error (Err.someComfort "Invalid time: must be on a 15-minute boundary")) ∧
    (∀ t : TimeOfDay, t.hour < 24 →
      (t.minute = 0 ∨ t.minute = 15 ∨ t.minute = 30 ∨ t.minute = 45) →
      hold_quarter_hours t = Except.ok ((t.hour * 60 + t.minute) / 15) ∧
      hold_deadline ((t.hour * 60 + t.minute) / 15) = Except.ok t) := by
  constructor
  · intro t which temperature h
    simp [set_hold, hold_quarter_hours, h]
  · intro t h24 hm
    refine ⟨by simp [hold_quarter_hours, hm], ?_⟩
    rcases t with ⟨hh, mm⟩
    simp only at hm h24
    show hold_deadline ((hh * 60 + mm) / 15) = Except.ok (TimeOfDay.mk hh mm)
    rcases hm with rfl | rfl | rfl | rfl <;>
      rw [hold_deadline_ok _ (by omega)] <;>
      simp only [Except.ok.injEq, TimeOfDay.mk.injEq] <;>
      exact ⟨by omega, by omega⟩

theorem C4_hold_deadline_roundtrip_witness :
    (set_hold exCs exDev Which.Heat (HoldArg.timeArg (TimeOfDay.mk 8 7)) none exRespOK).requests = [] ∧
    (set_hold exCs exDev Which.Heat (HoldArg.timeArg (TimeOfDay.mk 8 7)) none exRespOK).result =
      Except.error (Err.someComfort "Invalid time: must be on a 15-minute boundary") ∧
    hold_quarter_hours (TimeOfDay.mk 8 30) = Except.ok 34 ∧
    hold_deadline 34 = Except.ok (TimeOfDay.mk 8 30) := by
  have h := C4_hold_deadline_roundtrip exCs exDev exRespOK
  have a := h.1 (TimeOfDay.mk 8 7) Which.Heat none (by decide)
  have b := h.2 (TimeOfDay.mk 8 30) (by decide) (by decide)
  exact ⟨a.1, a.2, b.1, b.2⟩

/-- Counting a failure always increments the counter by one. -/
theorem set_null_count_count (cs : ClientState) (now : Int) :
    (set_null_count cs now).nullCookieCount = cs.nullCookieCount + 1 := by
  unfold set_null_count
  split <;> rfl

/-- Below the attempt limit, counting a failure keeps next_login in place. -/
theorem set_null_count_small (cs : ClientState) (now : Int)
    (h : cs.nullCookieCount + 1 < MAX_LOGIN_ATTEMPTS) :
    set_null_count cs now = ClientState.mk (cs.nullCookieCount + 1) cs.nextLogin := by
  unfold set_null_count
  rw [if_neg (Nat.not_le.mpr h)]

/-- At the attempt limit, counting a failure pushes next_login out by ten
minutes from the current time. -/
theorem set_null_count_limit (cs : ClientState) (now : Int)
    (h : MAX_LOGIN_ATTEMPTS ≤ cs.nullCookieCount + 1) :
    set_null_count cs now = ClientState.mk (cs.nullCookieCount + 1) (now + MIN_LOGIN_TIME) := by
  unfold set_null_count
  rw [if_pos h]

/-- A login whose first POST returns 401 counts the failure and raises the
auth error. -/
theorem login_post401 (cs : ClientState) (now : Int) (tr : LoginResponses)
    (hgate : ¬ cs.nextLogin > now) (hp : tr.postStatus = 401) :
    login cs now tr =
      LoginOutcome.mk 1 (set_null_count cs now) (Except.error (Err.auth "Login as %s failed")) := by
  simp [login, hgate, hp]

/-- C7 counterexample: a first POST returning status 500 raises
ConnectionError and leaves the failure counter untouched, refuting the claim
that any non-200 first POST increments the counter and fails with an auth
error. -/
theorem C7_counterexample :
    login (ClientState.mk 0 0) 0 (LoginResponses.mk 500 200 none) =
      LoginOutcome.mk 1 (ClientState.mk 0 0)
        (Except.error (Err.conn "Connection error 500")) := rfl

/-- C7 amended: a first POST with status 401 increments the failure counter
and fails with an auth error; a first POST with any other non-200 status
fails with ConnectionError and leaves the client state unchanged. -/
theorem C7_login_first_post (cs : ClientState) (now : Int) (tr : LoginResponses)
    (hgate : cs.nextLogin ≤ now) :
    (tr.postStatus = 401 →
      (login cs now tr).requests = 1 ∧
      (login cs now tr).cs.nullCookieCount = cs.nullCookieCount + 1 ∧
      (login cs now tr).result = Except.error (Err.auth "Login as %s failed")) ∧
    (tr.postStatus ≠ 401 → tr.postStatus ≠ 200 →
      (login cs now tr).requests = 1 ∧
      (login cs now tr).cs = cs ∧
      (login cs now tr).result =
        Except.error (Err.conn ("Connection error " ++ toString tr.postStatus))) := by
  have hg : ¬ cs.nextLogin > now := by omega
  constructor
  · intro hp
    rw [login_post401 cs now tr hg hp]
    exact ⟨rfl, set_null_count_count cs now, rfl⟩
  · intro hp h200
    have e : login cs now tr =
        LoginOutcome.mk 1 cs
          (Except.error (Err.conn ("Connection error " ++ toString tr.postStatus))) := by
      simp [login, hg, hp, h200]
    rw [e]
    exact ⟨rfl, rfl, rfl⟩

theorem C7_login_first_post_witness :
    ((login (ClientState.mk 0 0) 0 (LoginResponses.mk 401 200 none)).requests = 1 ∧
     (login (ClientState.mk 0 0) 0 (LoginResponses.mk 401 200 none)).cs.nullCookieCount = 0 + 1 ∧
     (login (ClientState.mk 0 0) 0 (LoginResponses.mk 401 200 none)).result =
       Except.error (Err.auth "Login as %s failed")) ∧
    ((login (ClientState.mk 0 0) 0 (LoginResponses.mk 500 200 none)).requests = 1 ∧
     (login (ClientState.mk 0 0) 0 (LoginResponses.mk 500 200 none)).cs = ClientState.mk 0 0 ∧
     (login (ClientState.mk 0 0) 0 (LoginResponses.mk 500 200 none)).result =
       Except.error (Err.conn ("Connection error " ++ toString 500))) := by
  refine ⟨?_, ?_⟩
  · exact (C7_login_first_post (ClientState.mk 0 0) 0 (LoginResponses.mk 401 200 none)
      (by decide)).1 rfl
  · exact (C7_login_first_post (ClientState.mk 0 0) 0 (LoginResponses.mk 500 200 none)
      (by decide)).2 (by decide) (by decide)

/-- C2: three consecutive logins that each fail with a counted auth failure
leave next_login at the time of the third failure plus ten minutes, the
counter stepping 1, 2, 3; and a login attempted while the current time is
before next_login issues zero transport requests, fails with APIRateLimited
and leaves the client state unchanged. -/
theorem C2_login_rate_limit (cs : ClientState) (t1 t2 t3 now : Int) (tr : LoginResponses) :
    (cs.nullCookieCount = 0 → tr.postStatus = 401 →
      cs.nextLogin ≤ t1 → t1 ≤ t2 → t2 ≤ t3 →
      (login cs t1 tr).cs = ClientState.mk 1 cs.nextLogin ∧
      (login (login cs t1 tr).cs t2 tr).cs = ClientState.mk 2 cs.nextLogin ∧
      (login (login (login cs t1 tr).cs t2 tr).cs t3 tr).cs =
        ClientState.mk 3 (t3 + MIN_LOGIN_TIME)) ∧
    (now < cs.nextLogin →
      login cs now tr =
        LoginOutcome.mk 0 cs
          (Except.error (Err.rateLimited "Rate limit on login: Waiting 0:10:00"))) := by
  constructor
  · intro hc hp h1 h2 h3
    have e1 : (login cs t1 tr).cs = ClientState.mk 1 cs.nextLogin := by
      rw [login_post401 cs t1 tr (by omega) hp]
      show set_null_count cs t1 = ClientState.mk 1 cs.nextLogin
      rw [set_null_count_small cs t1 (by simp [hc, MAX_LOGIN_ATTEMPTS]), hc]
    have e2 : (login (login cs t1 tr).cs t2 tr).cs = ClientState.mk 2 cs.nextLogin := by
      rw [e1, login_post401 _ t2 tr (by simpa using (by omega : ¬ cs.nextLogin > t2)) hp]
      show set_null_count (ClientState.mk 1 cs.nextLogin) t2 = ClientState.mk 2 cs.nextLogin
      rw [set_null_count_small _ t2 (by simp [MAX_LOGIN_ATTEMPTS])]
    have e3 : (login (login (login cs t1 tr).cs t2 tr).cs t3 tr).cs =
        ClientState.mk 3 (t3 + MIN_LOGIN_TIME) := by
      rw [e2, login_post401 _ t3 tr (by simpa using (by omega : ¬ cs.nextLogin > t3)) hp]
      show set_null_count (ClientState.mk 2 cs.nextLogin) t3 =
        ClientState.mk 3 (t3 + MIN_LOGIN_TIME)
      rw [set_null_count_limit _ t3 (by simp [MAX_LOGIN_ATTEMPTS])]
    exact ⟨e1, e2, e3⟩
  · intro h
    simp only [login, if_pos (by omega : cs.nextLogin > now)]

theorem C2_login_rate_limit_witness :
    ((login (ClientState.mk 0 0) 0 (LoginResponses.mk 401 200 none)).cs = ClientState.mk 1 0 ∧
     (login (login (ClientState.mk 0 0) 0 (LoginResponses.mk 401 200 none)).cs 1
        (LoginResponses.mk 401 200 none)).cs = ClientState.mk 2 0 ∧
     (login (login (login (ClientState.mk 0 0) 0 (LoginResponses.mk 401 200 none)).cs 1
        (LoginResponses.mk 401 200 none)).cs 2 (LoginResponses.mk 401 200 none)).cs =
       ClientState.mk 3 (2 + MIN_LOGIN_TIME)) ∧
    login (ClientState.mk 0 700) 5 (LoginResponses.mk 401 200 none) =
      LoginOutcome.mk 0 (ClientState.mk 0 700)
        (Except.error (Err.rateLimited "Rate limit on login: Waiting 0:10:00")) := by
  refine ⟨?_, ?_⟩
  · exact (C2_login_rate_limit (ClientState.mk 0 0) 0 1 2 0 (LoginResponses.mk 401 200 none)).1
      rfl rfl (by decide) (by decide) (by decide)
  · exact (C2_login_rate_limit (ClientState.mk 0 700) 0 1 2 5 (LoginResponses.mk 401 200 none)).2
      (by decide)

/-- C6: the classification chain of _request_json, case by case in the order
the source checks them: a 200 response with JSON or octet-stream content
type succeeds, resets the failure counter to zero and returns the decoded
body (the raw response for the octet-stream type); a 401 or 403 status
raises the unauthorized error; a 500, 502 or 503 status raises the
service-unavailable connection error, as does a redirect history on any
response not already classified by the earlier cases; every other outcome
raises UnexpectedResponse carrying the status and the request path with the
base URL stripped. -/
theorem C6_request_json_classification (cs : ClientState) (url : String) (resp : HttpResponse) :
    (resp.status = 200 → resp.contentType = "application/json" →
      request_json cs url resp =
        (ClientState.mk 0 cs.nextLogin, Except.ok (ReqResult.jsonVal resp.jsonBody))) ∧
    (resp.status = 200 → resp.contentType = "application/octet-stream" →
      request_json cs url resp =
        (ClientState.mk 0 cs.nextLogin, Except.ok (ReqResult.rawResp resp))) ∧
    (resp.status = 401 ∨ resp.status = 403 →
      ∃ msg, request_json cs url resp = (cs, Except.error (Err.unauthorized msg))) ∧
    (resp.status = 500 ∨ resp.status = 502 ∨ resp.status = 503 →
      request_json cs url resp =
        (cs, Except.error (Err.conn ("Service Unavailable " ++ toString resp.status ++ ".")))) ∧
    (0 < resp.historyLen →
      ¬(resp.status = 200 ∧ (resp.contentType = "application/json" ∨
        resp.contentType = "application/octet-stream")) →
      resp.status ≠ 401 → resp.status ≠ 403 →
      request_json cs url resp =
        (cs, Except.error (Err.conn ("Service Unavailable " ++ toString resp.status ++ ".")))) ∧
    (¬(resp.status = 200 ∧ (resp.contentType = "application/json" ∨
        resp.contentType = "application/octet-stream")) →
      resp.status ≠ 401 → resp.status ≠ 403 →
      ¬(resp.status = 500 ∨ resp.status = 502 ∨ resp.status = 503 ∨ 0 < resp.historyLen) →
      request_json cs url resp =
        (cs, Except.error (Err.unexpectedResponse
          ("API returned " ++ toString resp.status ++ ", " ++ url.replace BASEURL "")))) := by
  refine ⟨?_, ?_, ?_, ?_, ?_, ?_⟩
  · intro h200 hct
    simp [request_json, h200, hct]
  · intro h200 hct
    simp [request_json, h200, hct]
  · rintro (h | h)
    · exact ⟨"401 Error at update (Key Expired?).", by simp [request_json, h]⟩
    · exact ⟨"403 Error at update (Key Expired?).", by simp [request_json, h]⟩
  · rintro (h | h | h) <;> simp [request_json, h]
  · intro hh hnot h401 h403
    rw [request_json, if_neg hnot, if_neg h401, if_neg h403,
      if_pos (Or.inr (Or.inr (Or.inr hh)))]
  · intro hnot h401 h403 hrest
    rw [request_json, if_neg hnot, if_neg h401, if_neg h403, if_neg hrest]

theorem C6_request_json_classification_witness :
    request_json (ClientState.mk 2 9) (BASEURL ++ "/portal/Device/CheckDataSession/x") exRespOK =
      (ClientState.mk 0 9, Except.ok (ReqResult.jsonVal exRespOK.jsonBody)) ∧
    request_json (ClientState.mk 2 9) (BASEURL ++ "/portal/x")
        (HttpResponse.mk 404 "text/html" 0 JVal.null) =
      (ClientState.mk 2 9, Except.error (Err.unexpectedResponse
        ("API returned " ++ toString 404 ++ ", " ++
          (BASEURL ++ "/portal/x").replace BASEURL ""))) := by
  constructor
  · exact (C6_request_json_classification (ClientState.mk 2 9)
      (BASEURL ++ "/portal/Device/CheckDataSession/x") exRespOK).1 rfl rfl
  · exact (C6_request_json_classification (ClientState.mk 2 9) (BASEURL ++ "/portal/x")
      (HttpResponse.mk 404 "text/html" 0 JVal.null)).2.2.2.2.2
      (by simp) (by decide) (by decide) (by simp)

/-- C8 counterexample: requesting fan mode on when the fanData flags lack the
fanModeOnAllowed key fails before any request, but with a raw KeyError
escaping rather than the library capability/validation error the claim
names. -/
theorem C8_counterexample :
    set_fan_mode exCs exDev "on" exRespOK =
      OpResult.mk [] (Except.error (Err.keyError "fanModeOnAllowed")) exDev exCs := rfl

/-- C8 amended: an unknown fan mode fails locally with the library validation
error; an enumerated fan mode whose allowed flag is present and false fails
locally with the library capability error; an enumerated fan mode whose
allowed flag is absent fails locally with a raw KeyError; in each case zero
requests are sent. set_system_mode checks its per-mode Switch{Mode}Allowed
flag in uiData before sending, with emheat checked against
SwitchEmergencyHeatAllowed, and a present-and-false flag fails locally with
the library capability error. -/
theorem C8_mode_validation (cs : ClientState) (dev : DevData) (resp : HttpResponse) :
    (∀ mode, pyIndex FAN_MODES mode = none →
      set_fan_mode cs dev mode resp =
        OpResult.mk [] (Except.error (Err.someComfort ("Invalid fan mode " ++ mode))) dev cs) ∧
    (∀ mode idx, pyIndex FAN_MODES mode = some idx →
      dev.fan.fanFlags.lookup ("fanMode" ++ pyTitle mode ++ "Allowed") = some false →
      set_fan_mode cs dev mode resp =
        OpResult.mk [] (Except.error (Err.someComfort ("Device does not support " ++ mode))) dev cs) ∧
    (∀ mode idx, pyIndex FAN_MODES mode = some idx →
      dev.fan.fanFlags.lookup ("fanMode" ++ pyTitle mode ++ "Allowed") = none →
      set_fan_mode cs dev mode resp =
        OpResult.mk [] (Except.error (Err.keyError ("fanMode" ++ pyTitle mode ++ "Allowed"))) dev cs) ∧
    (∀ mode idx, pyIndex SYSTEM_MODES mode = some idx → mode ≠ "emheat" →
      dev.ui.switchFlags.lookup ("Switch" ++ pyTitle mode ++ "Allowed") = some false →
      set_system_mode cs dev mode resp =
        OpResult.mk [] (Except.error (Err.someComfort ("Device does not support " ++ mode))) dev cs) ∧
    (dev.ui.switchFlags.lookup "SwitchEmergencyHeatAllowed" = some false →
      set_system_mode cs dev "emheat" resp =
        OpResult.mk [] (Except.error (Err.someComfort "Device does not support emheat")) dev cs) := by
  refine ⟨?_, ?_, ?_, ?_, ?_⟩
  · intro mode h
    simp [set_fan_mode, h]
  · intro mode idx h hl
    simp [set_fan_mode, h, hl]
  · intro mode idx h hl
    simp [set_fan_mode, h, hl]
  · intro mode idx h hne hl
    simp [set_system_mode, h, hne, hl]
  · intro hl
    have h : pyIndex SYSTEM_MODES "emheat" = some 0 := rfl
    simp [set_system_mode, h, hl]

theorem C8_mode_validation_witness :
    set_fan_mode exCs exDev "circulate" exRespOK =
      OpResult.mk [] (Except.error (Err.someComfort "Device does not support circulate")) exDev exCs ∧
    set_fan_mode exCs exDev "high" exRespOK =
      OpResult.mk [] (Except.error (Err.someComfort "Invalid fan mode high")) exDev exCs ∧
    set_system_mode exCs exDev "emheat" exRespOK =
      OpResult.mk [] (Except.error (Err.someComfort "Device does not support emheat")) exDev exCs := by
  have h := C8_mode_validation exCs exDev exRespOK
  refine ⟨?_, ?_, ?_⟩
  · have e := h.2.1 "circulate" 2 rfl rfl
    simpa using e
  · exact h.1 "high" rfl
  · exact h.2.2.2.2 rfl

/-- C1: with a positive deadband and an in-range heat target at distance
less than deadband below the cool setpoint (CoolSetpoint - Deadband ≤ temp),
set_setpoint_heat submits one payload carrying HeatSetpoint = temp and
CoolSetpoint = temp + Deadband; symmetrically, an in-range cool target with
temp ≤ HeatSetpoint + Deadband makes set_setpoint_cool submit
CoolSetpoint = temp and HeatSetpoint = temp - Deadband. The hold state
hypotheses delimit a well-formed cached device: a status code in range and a
NextPeriod encoding a valid time of day (below 96 quarter hours); outside
them _get_hold raises IndexError or ValueError before anything is
submitted. -/
theorem C1_deadband_adjustment (cs : ClientState) (dev : DevData) (resp : HttpResponse) :
    (∀ temp : Rat,
      0 < dev.ui.Deadband →
      dev.ui.HeatLowerSetptLimit ≤ temp → temp ≤ dev.ui.HeatUpperSetptLimit →
      dev.ui.CoolSetpoint - dev.ui.Deadband ≤ temp →
      dev.ui.StatusHeat < 3 → dev.ui.StatusCool < 3 →
      dev.ui.HeatNextPeriod < 96 → dev.ui.CoolNextPeriod < 96 →
      ∃ p, (set_setpoint_heat cs dev (some temp) resp).requests = [p] ∧
        p.HeatSetpoint = some temp ∧
        p.CoolSetpoint = some (temp + dev.ui.Deadband)) ∧
    (∀ temp : Rat,
      0 < dev.ui.Deadband →
      dev.ui.CoolLowerSetptLimit ≤ temp → temp ≤ dev.ui.CoolUpperSetptLimit →
      temp ≤ dev.ui.HeatSetpoint + dev.ui.Deadband →
      dev.ui.StatusHeat < 3 → dev.ui.StatusCool < 3 →
      dev.ui.HeatNextPeriod < 96 → dev.ui.CoolNextPeriod < 96 →
      ∃ p, (set_setpoint_cool cs dev temp resp).requests = [p] ∧
        p.CoolSetpoint = some temp ∧
        p.HeatSetpoint = some (temp - dev.ui.Deadband)) := by
  constructor
  · intro temp hdb hlo hhi hgap hSH hSC hHN hCN
    have hr : ¬(dev.ui.HeatUpperSetptLimit < temp ∨ temp < dev.ui.HeatLowerSetptLimit) := by
      simp only [not_or, not_lt]
      exact ⟨hhi, hlo⟩
    simp only [set_setpoint_heat]
    rw [if_neg hr, if_pos ⟨hdb, hgap⟩]
    by_cases hsched : dev.ui.StatusHeat = 0 ∧ dev.ui.StatusCool = 0
    · rw [promote_hold_schedule dev.ui _ hsched.1 hsched.2]
      exact ⟨_, rfl, rfl, rfl⟩
    · rw [promote_hold_held dev.ui _ hSH hSC hHN hCN hsched]
      exact ⟨_, rfl, rfl, rfl⟩
  · intro temp hdb hlo hhi hgap hSH hSC hHN hCN
    have hr : ¬(dev.ui.CoolUpperSetptLimit < temp ∨ temp < dev.ui.CoolLowerSetptLimit) := by
      simp only [not_or, not_lt]
      exact ⟨hhi, hlo⟩
    simp only [set_setpoint_cool]
    rw [if_neg hr, if_pos ⟨hdb, hgap⟩]
    by_cases hsched : dev.ui.StatusHeat = 0 ∧ dev.ui.StatusCool = 0
    · rw [promote_hold_schedule dev.ui _ hsched.1 hsched.2]
      exact ⟨_, rfl, rfl, rfl⟩
    · rw [promote_hold_held dev.ui _ hSH hSC hHN hCN hsched]
      exact ⟨_, rfl, rfl, rfl⟩

/-- C1 witness: the spec scenario, cool 75, heat 68, deadband 3; setting heat
to 74 submits HeatSetpoint 74 and CoolSetpoint 77. -/
theorem C1_deadband_adjustment_witness :
    ∃ p, (set_setpoint_heat exCs exDev (some 74) exRespOK).requests = [p] ∧
      p.HeatSetpoint = some 74 ∧ p.CoolSetpoint = some 77 := by
  obtain ⟨p, hp, h1, h2⟩ := (C1_deadband_adjustment exCs exDev exRespOK).1 74
    (by norm_num [exDev, exUi]) (by norm_num [exDev, exUi]) (by norm_num [exDev, exUi])
    (by norm_num [exDev, exUi]) (by norm_num [exDev, exUi]) (by norm_num [exDev, exUi])
    (by norm_num [exDev, exUi]) (by norm_num [exDev, exUi])
  refine ⟨p, hp, h1, ?_⟩
  rw [h2]
  norm_num [exDev, exUi]

/-- C5: when both sides follow schedule, any in-range setpoint command also
carries StatusHeat and StatusCool set to the temporary hold value (index 1
of HOLD_TYPES); when either side already holds, the payload carries no hold
status fields (they stay null). -/
theorem C5_hold_promotion (cs : ClientState) (dev : DevData) (resp : HttpResponse) :
    (∀ temp : Rat,
      dev.ui.StatusHeat = 0 → dev.ui.StatusCool = 0 →
      ¬(dev.ui.HeatUpperSetptLimit < temp ∨ temp < dev.ui.HeatLowerSetptLimit) →
      ∃ p, (set_setpoint_heat cs dev (some temp) resp).requests = [p] ∧
        p.StatusHeat = some 1 ∧ p.StatusCool = some 1) ∧
    (∀ temp : Rat,
      dev.ui.StatusHeat = 0 → dev.ui.StatusCool = 0 →
      ¬(dev.ui.CoolUpperSetptLimit < temp ∨ temp < dev.ui.CoolLowerSetptLimit) →
      ∃ p, (set_setpoint_cool cs dev temp resp).requests = [p] ∧
        p.StatusHeat = some 1 ∧ p.StatusCool = some 1) ∧
    (∀ temp : Rat,
      dev.ui.StatusHeat < 3 → dev.ui.StatusCool < 3 →
      dev.ui.HeatNextPeriod < 96 → dev.ui.CoolNextPeriod < 96 →
      ¬(dev.ui.StatusHeat = 0 ∧ dev.ui.StatusCool = 0) →
      ¬(dev.ui.HeatUpperSetptLimit < temp ∨ temp < dev.ui.HeatLowerSetptLimit) →
      ∃ p, (set_setpoint_heat cs dev (some temp) resp).requests = [p] ∧
        p.StatusHeat = none ∧ p.StatusCool = none) ∧
    (∀ temp : Rat,
      dev.ui.StatusHeat < 3 → dev.ui.StatusCool < 3 →
      dev.ui.HeatNextPeriod < 96 → dev.ui.CoolNextPeriod < 96 →
      ¬(dev.ui.StatusHeat = 0 ∧ dev.ui.StatusCool = 0) →
      ¬(dev.ui.CoolUpperSetptLimit < temp ∨ temp < dev.ui.CoolLowerSetptLimit) →
      ∃ p, (set_setpoint_cool cs dev temp resp).requests = [p] ∧
        p.StatusHeat = none ∧ p.StatusCool = none) := by
  refine ⟨?_, ?_, ?_, ?_⟩
  · intro temp hs hc hr
    simp only [set_setpoint_heat]
    rw [if_neg hr]
    cases hdb : decide (0 < dev.ui.Deadband ∧ dev.ui.CoolSetpoint - dev.ui.Deadband ≤ temp) with
    | true =>
      rw [if_pos (of_decide_eq_true hdb), promote_hold_schedule dev.ui _ hs hc]
      exact ⟨_, rfl, rfl, rfl⟩
    | false =>
      rw [if_neg (of_decide_eq_false hdb), promote_hold_schedule dev.ui _ hs hc]
      exact ⟨_, rfl, rfl, rfl⟩
  · intro temp hs hc hr
    simp only [set_setpoint_cool]
    rw [if_neg hr]
    cases hdb : decide (0 < dev.ui.Deadband ∧ temp ≤ dev.ui.HeatSetpoint + dev.ui.Deadband) with
    | true =>
      rw [if_pos (of_decide_eq_true hdb), promote_hold_schedule dev.ui _ hs hc]
      exact ⟨_, rfl, rfl, rfl⟩
    | false =>
      rw [if_neg (of_decide_eq_false hdb), promote_hold_schedule dev.ui _ hs hc]
      exact ⟨_, rfl, rfl, rfl⟩
  · intro temp hSH hSC hHN hCN hheld hr
    simp only [set_setpoint_heat]
    rw [if_neg hr]
    cases hdb : decide (0 < dev.ui.Deadband ∧ dev.ui.CoolSetpoint - dev.ui.Deadband ≤ temp) with
    | true =>
      rw [if_pos (of_decide_eq_true hdb), promote_hold_held dev.ui _ hSH hSC hHN hCN hheld]
      exact ⟨_, rfl, rfl, rfl⟩
    | false =>
      rw [if_neg (of_decide_eq_false hdb), promote_hold_held dev.ui _ hSH hSC hHN hCN hheld]
      exact ⟨_, rfl, rfl, rfl⟩
  · intro temp hSH hSC hHN hCN hheld hr
    simp only [set_setpoint_cool]
    rw [if_neg hr]
    cases hdb : decide (0 < dev.ui.Deadband ∧ temp ≤ dev.ui.HeatSetpoint + dev.ui.Deadband) with
    | true =>
      rw [if_pos (of_decide_eq_true hdb), promote_hold_held dev.ui _ hSH hSC hHN hCN hheld]
      exact ⟨_, rfl, rfl, rfl⟩
    | false =>
      rw [if_neg (of_decide_eq_false hdb), promote_hold_held dev.ui _ hSH hSC hHN hCN hheld]
      exact ⟨_, rfl, rfl, rfl⟩

/-- C5 witness: with both sides on schedule in the example device, setting
heat to 70 adds temporary StatusHeat and StatusCool; in the device with a
permanent heat hold, the payload carries no status fields. -/
theorem C5_hold_promotion_witness :
    (∃ p, (set_setpoint_heat exCs exDev (some 70) exRespOK).requests = [p] ∧
      p.StatusHeat = some 1 ∧ p.StatusCool = some 1) ∧
    (∃ p, (set_setpoint_heat exCs (DevData.mk { exUi with StatusHeat := 2 } exFan)
        (some 70) exRespOK).requests = [p] ∧
      p.StatusHeat = none ∧ p.StatusCool = none) := by
  constructor
  · exact (C5_hold_promotion exCs exDev exRespOK).1 70 rfl rfl (by norm_num [exDev, exUi])
  · exact (C5_hold_promotion exCs (DevData.mk { exUi with StatusHeat := 2 } exFan)
      exRespOK).2.2.1 70 (by norm_num [exUi]) (by norm_num [exUi]) (by norm_num [exUi])
      (by norm_num [exUi]) (by norm_num [exUi]) (by norm_num [exUi])

/-- C9 counterexample: set_humidifier_setpoint writes the rounded setpoint
into the cached extended data block before the POST, so a failed command
(here the transport answers 500) leaves the cache mutated: the cached
Humidifier setpoint has moved from 40 to 35 although the operation raised
the connection error. This refutes the claim that every failing operation
leaves the cached data block unchanged. -/
theorem C9_counterexample :
    (set_humidifier_setpoint (ClientState.mk 0 0)
        (GData.mk (some (HumData.mk 40 1 60 10)) none) 37
        (HttpResponse.mk 500 "text/html" 0 JVal.null)).result =
      Except.error (Err.conn "Service Unavailable 500.") ∧
    (set_humidifier_setpoint (ClientState.mk 0 0)
        (GData.mk (some (HumData.mk 40 1 60 10)) none) 37
        (HttpResponse.mk 500 "text/html" 0 JVal.null)).gdata =
      GData.mk (some (HumData.mk 35 1 60 10)) none := by
  constructor
  · rfl
  · show GData.mk (some (HumData.mk (humidity_step 37) 1 60 10)) none =
      GData.mk (some (HumData.mk 35 1 60 10)) none
    norm_num [humidity_step, HUMIDITY_STEP, round_eq]

/-- C9 amended: for the thermostat command operations set_setpoint_heat and
_set_hold, any failure — local validation, a raised hold lookup, or a
rejected or failed remote command — leaves the cached device data unchanged;
on success the cache is updated only with the values carried by the single
payload that was sent (the heat setpoint for set_setpoint_heat, the dict
update of the sent settings for _set_hold); and neither operation ever moves
next_login, so the only client state a failure can touch is the failure
counter. The humidifier and dehumidifier mutators are excluded: they update
the cached extended block in place before posting. -/
theorem C9_mutation_discipline (cs : ClientState) (dev : DevData) (resp : HttpResponse) :
    (∀ (temparg : Option Rat) (e : Err),
      (set_setpoint_heat cs dev temparg resp).result = Except.error e →
      (set_setpoint_heat cs dev temparg resp).dev = dev) ∧
    (∀ temparg : Option Rat,
      (set_setpoint_heat cs dev temparg resp).result = Except.ok () →
      ∃ p, (set_setpoint_heat cs dev temparg resp).requests = [p] ∧
        ∃ t, p.HeatSetpoint = some t ∧
          (set_setpoint_heat cs dev temparg resp).dev =
            DevData.mk { dev.ui with HeatSetpoint := t } dev.fan) ∧
    (∀ (which : Which) (hold : HoldArg) (temperature : Option Rat) (e : Err),
      (set_hold cs dev which hold temperature resp).result = Except.error e →
      (set_hold cs dev which hold temperature resp).dev = dev) ∧
    (∀ (which : Which) (hold : HoldArg) (temperature : Option Rat),
      (set_hold cs dev which hold temperature resp).result = Except.ok () →
      ∃ p, (set_hold cs dev which hold temperature resp).requests = [p] ∧
        (set_hold cs dev which hold temperature resp).dev =
          DevData.mk (dev.ui.applySettings p) dev.fan) ∧
    (∀ temparg : Option Rat,
      (set_setpoint_heat cs dev temparg resp).cs.nextLogin = cs.nextLogin) ∧
    (∀ (which : Which) (hold : HoldArg) (temperature : Option Rat),
      (set_hold cs dev which hold temperature resp).cs.nextLogin = cs.nextLogin) := by
  refine ⟨?_, ?_, ?_, ?_, ?_, ?_⟩
  · intro temparg e
    simp only [set_setpoint_heat]
    split
    · intro _; rfl
    · split
      · intro _; rfl
      · intro h
        exact submitTail_error _ _ _ _ _ e h
  · intro temparg
    cases temparg with
    | none =>
      simp only [set_setpoint_heat]
      split
      · intro h; exact absurd h (by simp)
      · split
        · intro h; exact absurd h (by simp)
        · intro h
          rename_i d3 heq
          have hp := (promote_hold_preserves _ _ _ heq).1
          have hps : d3.HeatSetpoint = some dev.ui.HeatSetpoint := by
            rw [hp]
            split <;> rfl
          exact ⟨d3, rfl, _, hps, submitTail_ok _ _ _ _ _ h⟩
    | some t0 =>
      simp only [set_setpoint_heat]
      split
      · intro h; exact absurd h (by simp)
      · split
        · intro h; exact absurd h (by simp)
        · intro h
          rename_i d3 heq
          have hp := (promote_hold_preserves _ _ _ heq).1
          have hps : d3.HeatSetpoint = some t0 := by
            rw [hp]
            split <;> rfl
          exact ⟨d3, rfl, _, hps, submitTail_ok _ _ _ _ _ h⟩
  · intro which hold temperature e
    simp only [set_hold]
    split
    · intro _; rfl
    · split
      · intro _; rfl
      · intro h
        exact submitTail_error _ _ _ _ _ e h
  · intro which hold temperature
    simp only [set_hold]
    split
    · intro h; exact absurd h (by simp)
    · split
      · intro h; exact absurd h (by simp)
      · intro h
        exact ⟨_, rfl, submitTail_ok _ _ _ _ _ h⟩
  · intro temparg
    simp only [set_setpoint_heat]
    split
    · rfl
    · split
      · rfl
      · exact submitTail_nextLogin _ _ _ _ _
  · intro which hold temperature
    simp only [set_hold]
    split
    · rfl
    · split
      · rfl
      · exact submitTail_nextLogin _ _ _ _ _

/-- C9 witness: in the example device a rejected remote command (success 0)
leaves the cache untouched, and a successful set_setpoint_heat commits
exactly the sent heat setpoint; set_hold to permanent succeeds and commits
the dict update of the sent settings; next_login never moves. -/
theorem C9_mutation_discipline_witness :
    (set_setpoint_heat exCs exDev (some 74)
        (HttpResponse.mk 200 "application/json" 0 (JVal.obj [("success", JVal.num 0)]))).dev =
      exDev ∧
    (∃ p, (set_setpoint_heat exCs exDev (some 74) exRespOK).requests = [p] ∧
      ∃ t, p.HeatSetpoint = some t ∧
        (set_setpoint_heat exCs exDev (some 74) exRespOK).dev =
          DevData.mk { exDev.ui with HeatSetpoint := t } exDev.fan) ∧
    (∃ p, (set_hold exCs exDev Which.Heat (HoldArg.boolArg true) none exRespOK).requests = [p] ∧
      (set_hold exCs exDev Which.Heat (HoldArg.boolArg true) none exRespOK).dev =
        DevData.mk (exDev.ui.applySettings p) exDev.fan) ∧
    (set_setpoint_heat exCs exDev (some 74) exRespOK).cs.nextLogin = exCs.nextLogin := by
  have h1 := C9_mutation_discipline exCs exDev
    (HttpResponse.mk 200 "application/json" 0 (JVal.obj [("success", JVal.num 0)]))
  have h2 := C9_mutation_discipline exCs exDev exRespOK
  exact ⟨h1.1 (some 74) (Err.api "API rejected thermostat settings") rfl,
    h2.2.1 (some 74) rfl,
    h2.2.2.2.1 Which.Heat (HoldArg.boolArg true) none rfl,
    h2.2.2.2.2.1 (some 74)⟩

/-- C10: after a successful set_setpoint_heat whose single payload carried
the deadband-pushed CoolSetpoint = temp + Deadband, the cache holds
HeatSetpoint = temp while CoolSetpoint keeps its old value; symmetrically, a
successful set_setpoint_cool whose payload pushed
HeatSetpoint = temp - Deadband commits CoolSetpoint = temp and leaves the
cached HeatSetpoint unchanged. -/
theorem C10_pushed_setpoint_not_cached (cs : ClientState) (dev : DevData) (resp : HttpResponse) :
    (∀ (temp : Rat) (p : Settings),
      (set_setpoint_heat cs dev (some temp) resp).result = Except.ok () →
      (set_setpoint_heat cs dev (some temp) resp).requests = [p] →
      p.CoolSetpoint = some (temp + dev.ui.Deadband) →
      (set_setpoint_heat cs dev (some temp) resp).dev.ui.HeatSetpoint = temp ∧
      (set_setpoint_heat cs dev (some temp) resp).dev.ui.CoolSetpoint = dev.ui.CoolSetpoint) ∧
    (∀ (temp : Rat) (p : Settings),
      (set_setpoint_cool cs dev temp resp).result = Except.ok () →
      (set_setpoint_cool cs dev temp resp).requests = [p] →
      p.HeatSetpoint = some (temp - dev.ui.Deadband) →
      (set_setpoint_cool cs dev temp resp).dev.ui.CoolSetpoint = temp ∧
      (set_setpoint_cool cs dev temp resp).dev.ui.HeatSetpoint = dev.ui.HeatSetpoint) := by
  constructor
  · intro temp p
    simp only [set_setpoint_heat]
    split
    · intro h; exact absurd h (by simp)
    · split
      · intro h; exact absurd h (by simp)
      · intro h _ _
        have hd := submitTail_ok _ _ _ _ _ h
        rw [hd]
        exact ⟨rfl, rfl⟩
  · intro temp p
    simp only [set_setpoint_cool]
    split
    · intro h; exact absurd h (by simp)
    · split
      · intro h; exact absurd h (by simp)
      · intro h _ _
        have hd := submitTail_ok _ _ _ _ _ h
        rw [hd]
        exact ⟨rfl, rfl⟩

/-- C10 witness: the spec scenario commits heat 74 while the cached cool
setpoint stays 75 even though the payload pushed cool to 77. -/
theorem C10_pushed_setpoint_not_cached_witness :
    (set_setpoint_heat exCs exDev (some 74) exRespOK).dev.ui.HeatSetpoint = 74 ∧
    (set_setpoint_heat exCs exDev (some 74) exRespOK).dev.ui.CoolSetpoint = exDev.ui.CoolSetpoint := by
  have hok : (set_setpoint_heat exCs exDev (some 74) exRespOK).result = Except.ok () := by
    simp only [set_setpoint_heat]
    rw [if_neg (by norm_num [exDev, exUi]), if_pos (by norm_num [exDev, exUi]),
      promote_hold_schedule exDev.ui _ rfl rfl]
    rfl
  have hreq : (set_setpoint_heat exCs exDev (some 74) exRespOK).requests =
      [Settings.mk none (some 74) (some (74 + exDev.ui.Deadband)) none none
        (some 1) (some 1) none] := by
    simp only [set_setpoint_heat]
    rw [if_neg (by norm_num [exDev, exUi]), if_pos (by norm_num [exDev, exUi]),
      promote_hold_schedule exDev.ui _ rfl rfl]
    rfl
  exact (C10_pushed_setpoint_not_cached exCs exDev exRespOK).1 74 _ hok hreq rfl

end AIOSomecomfort
